import Mathlib

/-!
Shallow embedding of `cmd/gost/route.go` from the echo-tproxy repository
(a fork of gost v2's route builder).  External collaborators — the gost
library's parsers/constructors, the Go standard library's net and crypto
packages, and the filesystem — are modelled by an explicit `Env` record of
(possibly fallible) functions; the control flow of `parseChainNode`,
`parseChain` and `GenRouters` is translated statement by statement.
-/

namespace EchoTproxy

/-- Errors are represented by their message strings (Go `error`). -/
abbrev Err := String

/-- Model of `url.Userinfo`: `pass = none` corresponds to `url.User`
(password unset), `pass = some p` to `url.UserPassword`. -/
structure User where
  name : String
  pass : Option String
deriving DecidableEq, Repr

/-- Opaque handle for a parsed certificate (`tls.Certificate` / `x509.Certificate`). -/
abbrev Cert := String

/-- Opaque handle for an `x509.CertPool`. -/
abbrev CertPool := String

/-- Opaque handle for parsed SSH key material. -/
abbrev SSHKey := String

/-- Opaque handle for a bypass rule set (`gost.Bypass`). -/
abbrev Bypass := String

/-- Data of the manual `VerifyConnection` closure installed by
`parseChainNode`: the closure is fully determined by the captured CA pool,
so we record the pool and give the closure body as `runVerifyConnection`. -/
structure VerifySpec where
  roots : CertPool
deriving DecidableEq, Repr

/-- Model of `x509.VerifyOptions` as consumed by the manual verification
closure (current time is a runtime value no claim depends on). -/
structure VerifyOptions where
  roots : CertPool
  dnsName : String
  intermediates : List Cert
deriving DecidableEq, Repr

/-- Model of `tls.Config` restricted to the fields `route.go` writes. -/
structure TLSConfig where
  serverName : String
  insecureSkipVerify : Bool
  rootCAs : Option CertPool
  verifyConnection : Option VerifySpec
  certificates : List Cert
deriving DecidableEq, Repr

/-- Model of `gost.WSOptions` (fields set by `route.go`). -/
structure WSOptions where
  enableCompression : Bool
  readBufferSize : Int
  writeBufferSize : Int
  userAgent : String
  path : String
deriving DecidableEq, Repr

/-- Model of `gost.KCPConfig`: only the `TCP` field is touched by
`route.go`; the rest of the config is an opaque tag. -/
structure KCPConfig where
  tag : String
  tcp : Bool
deriving DecidableEq, Repr

/-- The library's `gost.DefaultKCPConfig`. -/
def DefaultKCPConfig : KCPConfig := { tag := "default", tcp := false }

/-- Model of a `gost.Authenticator`: either one produced by
`parseAuthenticator` from a secrets file, or a `gost.NewLocalAuthenticator`
over an explicit credential map. -/
inductive Authenticator where
  | external (tag : String)
  | localAuth (kvs : List (String × String))
deriving DecidableEq, Repr

/-- Model of `gost.SSHConfig` (fields set by `route.go`). -/
structure SSHConfig where
  authenticator : Option Authenticator := none
  tlsConfig : Option TLSConfig := none
  key : Option SSHKey := none
  authorizedKeys : List SSHKey := []
deriving DecidableEq, Repr

/-- Durations are carried as their raw option strings: `GetDuration`
delegates to `time.ParseDuration`, external stdlib behaviour that no part
of `route.go`'s own logic inspects. -/
abbrev Duration := String

/-- Model of the `gost.DialOption`s built in `parseChainNode`. -/
inductive DialOption where
  | timeoutD (d : Duration)
  | hostD (h : String)
deriving DecidableEq, Repr

/-- Model of the `gost.ConnectOption`s built in `parseChainNode`. -/
inductive ConnectOption where
  | userAgent (s : String)
  | noTLS (b : Bool)
  | noDelay (b : Bool)
deriving DecidableEq, Repr

/-- Model of the `gost.HandshakeOption`s built in `parseChainNode`. -/
inductive HandshakeOption where
  | addr (a : String)
  | host (h : String)
  | user (u : Option User)
  | tlsConfig (c : TLSConfig)
  | interval (d : Duration)
  | timeoutH (d : Duration)
  | retryH (n : Int)
  | sshConfig (c : SSHConfig)
deriving DecidableEq, Repr

/-- Tags (with the arguments `route.go` passes) for the gost Transporter
constructors selected by `parseChainNode`'s transport switch. -/
inductive Transporter where
  | tls
  | mtls
  | ws (o : WSOptions)
  | mws (o : WSOptions)
  | wss (o : WSOptions)
  | mwss (o : WSOptions)
  | kcp (c : KCPConfig)
  | sshForward
  | sshTunnel
  | http2 (c : TLSConfig)
  | h2 (c : TLSConfig) (path : String)
  | h2c (path : String)
  | obfs4
  | ohttp
  | otls
  | ftcp
  | udp
  | vsock
  | tcp
deriving DecidableEq, Repr

/-- Tags (with arguments) for the gost Connector constructors selected by
`parseChainNode`'s protocol switch. -/
inductive Connector where
  | http2 (u : Option User)
  | socks5 (u : Option User)
  | socks4
  | socks4a
  | ss (u : Option User)
  | ssu (u : Option User)
  | sshDirect
  | sshRemote
  | forward
  | sni (host : String)
  | http (u : Option User)
  | relay (u : Option User)
  | auto (u : Option User)
deriving DecidableEq, Repr

/-- Model of `gost.Client`. -/
structure Client where
  connector : Connector
  transporter : Transporter
deriving DecidableEq, Repr

/-- Model of `gost.Node` restricted to the fields `route.go` reads or
writes.  `values` is the parsed query-option bag (`url.Values`, first
value per key). -/
structure Node where
  id : Nat := 0
  addr : String := ""
  host : String := ""
  protocol : String := ""
  transport : String := ""
  remote : String := ""
  user : Option User := none
  values : List (String × String) := []
  dialOptions : List DialOption := []
  connectOptions : List ConnectOption := []
  handshakeOptions : List HandshakeOption := []
  client : Option Client := none
  bypass : Option Bypass := none
deriving DecidableEq, Repr

instance : Inhabited Node := ⟨{}⟩

/-- `Node.Get`: first value for the key in the option bag, `""` if absent. -/
def Node.get (n : Node) (k : String) : String :=
  (n.values.lookup k).getD ""

/-- Go's `strconv.ParseBool` with its error discarded (`gost.Node.GetBool`):
true exactly on the truthy literals it accepts. -/
def parseBool (s : String) : Bool :=
  s = "1" ∨ s = "t" ∨ s = "T" ∨ s = "true" ∨ s = "TRUE" ∨ s = "True"

def Node.getBool (n : Node) (k : String) : Bool :=
  parseBool (n.get k)

/-- Go's `strconv.Atoi` with its error discarded (`gost.Node.GetInt`). -/
def atoi (s : String) : Int :=
  (s.toInt?).getD 0

def Node.getInt (n : Node) (k : String) : Int :=
  atoi (n.get k)

/-- `gost.Node.GetDuration`: the raw option string (see `Duration`). -/
def Node.getDuration (n : Node) (k : String) : Duration :=
  n.get k

/-- `strings.IndexByte(cs, ':')`-based split used for decoded auth tokens:
`none` when no colon occurs, otherwise the parts before and after the
first colon. -/
def splitAtFirstColon (s : String) : Option (String × String) :=
  match s.splitOn ":" with
  | [] => none
  | [_] => none
  | h :: rest => some (h, String.intercalate ":" rest)

/-- Selector parameters installed on a node group
(`SetSelector(nil, WithFilter(FailFilter{..}, InvalidFilter{}), WithStrategy(..))`):
the fail filter's two parameters and the strategy name handed to
`gost.NewStrategy`. -/
structure SelectorCfg where
  maxFails : Int
  failTimeout : Duration
  strategy : String
deriving DecidableEq, Repr

/-- Model of `gost.NodeGroup` as assembled by `parseChain`. -/
structure NodeGroup where
  id : Nat
  nodes : List Node
  selector : SelectorCfg
deriving DecidableEq, Repr

/-- Model of `gost.Chain` as assembled by `parseChain`. -/
structure Chain where
  retries : Int
  mark : Int
  iface : String
  groups : List NodeGroup
deriving DecidableEq, Repr

/-- The `route` struct of `route.go` (CLI flag bundle). -/
structure route where
  serveNodes : List String := []
  chainNodes : List String := []
  retries : Int := 0
  mark : Int := 0
  iface : String := ""
deriving DecidableEq, Repr

/-- Opaque handle for a `net.Interface` returned by `net.InterfaceByName`. -/
abbrev NetInterface := String

/-- Model of one element of `Interface.Addrs()`: `toV4` is the result of
`addr.(*net.IPNet).IP.To4()` — `some ip` for an IPv4 address, `none`
otherwise. -/
structure NetAddr where
  toV4 : Option String
deriving DecidableEq, Repr

/-- Model of `net.TCPAddr` as produced by `net.ResolveTCPAddr`. -/
structure TCPAddr where
  ip : String
  port : Int
  zone : String
deriving DecidableEq, Repr

/-- `net.TCPAddr.String()` for the rebuilt listen address: the substituted
IPv4 host joined with the preserved port (and zone, when present). -/
def tcpAddrString (ip : String) (port : Int) (zone : String) : String :=
  if zone = "" then ip ++ ":" ++ toString port
  else ip ++ "%" ++ zone ++ ":" ++ toString port

/-- Model of one parsed element of `parseIPRoutes` (`gost.IPRoute`). -/
structure IPRoute where
  dest : String
  gateway : Option String
deriving DecidableEq, Repr

/-- Opaque handle for a `gost.Resolver`. -/
abbrev Resolver := String

/-- Opaque handle for a `gost.Hosts` table. -/
abbrev Hosts := String

/-- Opaque handle for a `gost.Permissions` rule set. -/
abbrev Permissions := String

/-- Model of `gost.UDPListenConfig` (fields set by `route.go`). -/
structure UDPListenConfig where
  ttl : Duration
  backlog : Int
  queueSize : Int
deriving DecidableEq, Repr

/-- Model of `gost.TunConfig` (fields set by `route.go`). -/
structure TunConfig where
  name : String
  addr : String
  peer : String
  mtu : Int
  routes : List IPRoute
  gateway : String
deriving DecidableEq, Repr

/-- Model of `gost.TapConfig` (fields set by `route.go`). -/
structure TapConfig where
  name : String
  addr : String
  mtu : Int
  routes : List String
  gateway : String
deriving DecidableEq, Repr

/-- Record of which gost Listener constructor `GenRouters` invokes, with the
arguments `route.go` passes (the shared chain handed to the remote-forward
listeners is threaded separately through the builder). -/
inductive ListenerCall where
  | tls (addr : String) (cfg : Option TLSConfig)
  | mtls (addr : String) (cfg : Option TLSConfig)
  | ws (addr : String) (o : WSOptions)
  | mws (addr : String) (o : WSOptions)
  | wss (addr : String) (cfg : Option TLSConfig) (o : WSOptions)
  | mwss (addr : String) (cfg : Option TLSConfig) (o : WSOptions)
  | kcp (addr : String) (c : KCPConfig)
  | sshTunnel (addr : String) (c : SSHConfig)
  | tcp (addr : String)
  | http2 (addr : String) (cfg : Option TLSConfig)
  | h2 (addr : String) (cfg : Option TLSConfig) (path : String)
  | h2c (addr : String) (path : String)
  | vsock (addr : String)
  | udp (addr : String) (c : UDPListenConfig)
  | rtcp (addr : String)
  | rudp (addr : String) (c : UDPListenConfig)
  | obfs4 (addr : String)
  | ohttp (addr : String)
  | otls (addr : String)
  | tun (cfg : TunConfig)
  | tap (cfg : TapConfig)
  | ftcp (addr : String) (c : UDPListenConfig)
  | dns (addr : String) (mode : String) (cfg : Option TLSConfig)
  | redu (addr : String) (c : UDPListenConfig)
deriving DecidableEq, Repr

/-- The listen address a ListenerCall binds, when the constructor takes one
(the TUN/TAP virtual-interface listeners do not). -/
def ListenerCall.addrArg : ListenerCall → Option String
  | .tls a _ => some a
  | .mtls a _ => some a
  | .ws a _ => some a
  | .mws a _ => some a
  | .wss a _ _ => some a
  | .mwss a _ _ => some a
  | .kcp a _ => some a
  | .sshTunnel a _ => some a
  | .tcp a => some a
  | .http2 a _ => some a
  | .h2 a _ _ => some a
  | .h2c a _ => some a
  | .vsock a => some a
  | .udp a _ => some a
  | .rtcp a => some a
  | .rudp a _ => some a
  | .obfs4 a => some a
  | .ohttp a => some a
  | .otls a => some a
  | .tun _ => none
  | .tap _ => none
  | .ftcp a _ => some a
  | .dns a _ _ => some a
  | .redu a _ => some a

/-- Tags (with the remote-target argument where one is passed) for the gost
Handler constructors selected by `GenRouters`' protocol switch. -/
inductive Handler where
  | http2
  | socks5
  | socks4
  | ss
  | http
  | tcpDirect (remote : String)
  | tcpRemote (remote : String)
  | udpDirect (remote : String)
  | udpRemote (remote : String)
  | sshForward
  | tcpRedirect
  | udpRedirect
  | ssu
  | sni
  | tun
  | tap
  | dns (remote : String)
  | relay (remote : String)
  | auto
deriving DecidableEq, Repr

/-- The environment of external collaborators: gost library parsers and
constructors, Go stdlib net/crypto/base64 functions, and the filesystem.
Fallible operations return `Except Err`; `route.go`'s own control flow is
what the embedding pins down. -/
structure Env where
  parseNode : String → Except Err Node
  base64Decode : String → Except Err String
  parseUsers : String → Except Err (List User)
  splitHostPort : String → String × String
  loadCA : String → Except Err (Option CertPool)
  loadX509KeyPair : String → String → Except Err Cert
  parseKCPConfig : String → Except Err (Option KCPConfig)
  parseSSHKeyFile : String → Except Err SSHKey
  parseSSHAuthorizedKeysFile : String → Except Err (List SSHKey)
  obfs4Init : Node → Bool → Except Err Unit
  parseIP : String → String → List String
  parseBypass : String → Option Bypass
  certVerify : Cert → VerifyOptions → Except Err Unit
  openPeerFile : String → Except Err Unit
  parseAuthenticator : String → Except Err (Option Authenticator)
  tlsConfigServe : String → String → String → Except Err TLSConfig
  parseIPRoutes : String → List IPRoute
  parseIPAddr : String → Option String
  parseHosts : String → Option Hosts
  parseResolver : String → Option Resolver
  parsePermissions : String → Except Err Permissions
  interfaceByName : String → Option NetInterface
  interfaceAddrs : NetInterface → Except Err (List NetAddr)
  resolveTCPAddr : String → Except Err TCPAddr
  listen : ListenerCall → Except Err String

/-- Lines 107–112: the credential built from a decoded auth token —
`url.User(cs)` when it has no colon, `url.UserPassword` on the parts around
the first colon otherwise. -/
def decodedUser (cs : String) : User :=
  match splitAtFirstColon cs with
  | none => ⟨cs, none⟩
  | some (u, p) => ⟨u, some p⟩

/-- Lines 101–113 (and identically 342–354): when an `auth` option is
present and no credential was embedded in the spec, base64-decode it and
split it at the first colon into `user[:pass]`, aborting when decoding
fails. -/
def applyAuthOption (env : Env) (node : Node) : Except Err Node :=
  if node.get "auth" ≠ "" ∧ node.user = none then do
    let cs ← env.base64Decode (node.get "auth")
    pure { node with user := some (decodedUser cs) }
  else pure node

/-- Lines 101–122 of `route.go`: resolve the node's credential.  An embedded
credential is kept; otherwise a non-empty `auth` option is base64-decoded
and split at the first colon; otherwise the first entry of the parsed
`secrets` file, if any, is used. -/
def resolveAuth (env : Env) (node : Node) : Except Err Node := do
  let node ← applyAuthOption env node
  if node.user = none then do
    let users ← env.parseUsers (node.get "secrets")
    match users with
    | [] => pure node
    | u :: _ => pure { node with user := some u }
  else pure node

/-- Lines 124–127: the TLS server name is the host portion of the node
address, or `"localhost"` when that portion is empty. -/
def hostOrLocalhost (h : String) : String :=
  if h = "" then "localhost" else h

/-- Lines 133–161: the base TLS configuration, including the manual
`VerifyConnection` closure installed exactly when a CA pool was loaded and
`secure` is not set. -/
def baseChainTLS (serverName : String) (rootCAs : Option CertPool) (node : Node) :
    TLSConfig :=
  let cfg : TLSConfig :=
    { serverName := serverName
      insecureSkipVerify := !(node.getBool "secure")
      rootCAs := rootCAs
      verifyConnection := none
      certificates := [] }
  match rootCAs with
  | some pool =>
      if node.getBool "secure" = false then
        { cfg with verifyConnection := some ⟨pool⟩ }
      else cfg
  | none => cfg

/-- Lines 142–160: the body of the manual `VerifyConnection` closure —
verify the first peer certificate against the captured CA pool with an
empty DNS name, registering every later peer certificate as an available
intermediate.  An empty peer list models the closure's out-of-range panic. -/
def runVerifyConnection (env : Env) (vs : VerifySpec) (peerCerts : List Cert) :
    Except Err Unit :=
  match peerCerts with
  | [] => Except.error "panic: index out of range"
  | leaf :: rest =>
      env.certVerify leaf
        { roots := vs.roots, dnsName := "", intermediates := rest }

/-- Lines 163–165: best-effort client certificate loading — the pair is
attached only when `tls.LoadX509KeyPair` succeeds, and a failure leaves the
configuration unchanged without aborting. -/
def attachClientCert (env : Env) (cfg : TLSConfig) (certFile keyFile : String) :
    TLSConfig :=
  match env.loadX509KeyPair certFile keyFile with
  | Except.ok cert => { cfg with certificates := [cert] }
  | Except.error _ => cfg

/-- Lines 167–172: the WebSocket options derived from a chain node. -/
def chainWSOptions (node : Node) : WSOptions :=
  { enableCompression := node.getBool "compression"
    readBufferSize := node.getInt "rbuf"
    writeBufferSize := node.getInt "wbuf"
    userAgent := node.get "agent"
    path := node.get "path" }

/-- The transport keys `parseChainNode`'s switch recognizes explicitly. -/
def chainTransportKeys : List String :=
  ["tls", "mtls", "ws", "mws", "wss", "mwss", "kcp", "ssh", "http2", "h2",
   "h2c", "obfs4", "ohttp", "otls", "ftcp", "udp", "vsock"]

/-- Lines 176–229: Transporter selection by transport key; the default
branch yields the plain TCP transporter. -/
def selectTransporter (env : Env) (node : Node) (tlsCfg : TLSConfig)
    (wsOpts : WSOptions) : Except Err Transporter :=
  match node.transport with
  | "tls" => pure Transporter.tls
  | "mtls" => pure Transporter.mtls
  | "ws" => pure (Transporter.ws wsOpts)
  | "mws" => pure (Transporter.mws wsOpts)
  | "wss" => pure (Transporter.wss wsOpts)
  | "mwss" => pure (Transporter.mwss wsOpts)
  | "kcp" => do
      let cfgOpt ← env.parseKCPConfig (node.get "c")
      match cfgOpt with
      | some c => pure (Transporter.kcp c)
      | none =>
          if node.getBool "tcp" then
            pure (Transporter.kcp { DefaultKCPConfig with tcp := true })
          else pure (Transporter.kcp DefaultKCPConfig)
  | "ssh" =>
      if node.protocol = "direct" ∨ node.protocol = "remote" then
        pure Transporter.sshForward
      else pure Transporter.sshTunnel
  | "http2" => pure (Transporter.http2 tlsCfg)
  | "h2" => pure (Transporter.h2 tlsCfg (node.get "path"))
  | "h2c" => pure (Transporter.h2c (node.get "path"))
  | "obfs4" => pure Transporter.obfs4
  | "ohttp" => pure Transporter.ohttp
  | "otls" => pure Transporter.otls
  | "ftcp" => pure Transporter.ftcp
  | "udp" => pure Transporter.udp
  | "vsock" => pure Transporter.vsock
  | _ => pure Transporter.tcp

/-- The protocol keys `parseChainNode`'s connector switch recognizes. -/
def chainProtocolKeys : List String :=
  ["http2", "socks", "socks5", "socks4", "socks4a", "ss", "ssu", "direct",
   "remote", "forward", "sni", "http", "relay"]

/-- Lines 231–259: Connector selection by protocol key; the default branch
yields the auto-detecting connector. -/
def selectConnector (node : Node) : Connector :=
  match node.protocol with
  | "http2" => Connector.http2 node.user
  | "socks" => Connector.socks5 node.user
  | "socks5" => Connector.socks5 node.user
  | "socks4" => Connector.socks4
  | "socks4a" => Connector.socks4a
  | "ss" => Connector.ss node.user
  | "ssu" => Connector.ssu node.user
  | "direct" => Connector.sshDirect
  | "remote" => Connector.sshRemote
  | "forward" => Connector.forward
  | "sni" => Connector.sni (node.get "host")
  | "http" => Connector.http node.user
  | "relay" => Connector.relay node.user
  | _ => Connector.auto node.user

/-- Lines 277–284: the SSH configuration: a non-empty `ssh_key` option is
parsed (aborting on failure); otherwise the config stays empty. -/
def buildSSHConfig (env : Env) (node : Node) : Except Err SSHConfig :=
  if node.get "ssh_key" ≠ "" then do
    let key ← env.parseSSHKeyFile (node.get "ssh_key")
    pure { key := some key }
  else pure {}

/-- Lines 285–294: the handshake option list of a chain node. -/
def chainHandshakeOptions (node : Node) (host : String) (tlsCfg : TLSConfig)
    (timeout : Duration) (sshCfg : SSHConfig) : List HandshakeOption :=
  [HandshakeOption.addr node.addr,
   HandshakeOption.host host,
   HandshakeOption.user node.user,
   HandshakeOption.tlsConfig tlsCfg,
   HandshakeOption.interval (node.getDuration "ping"),
   HandshakeOption.timeoutH timeout,
   HandshakeOption.retryH (node.getInt "retry"),
   HandshakeOption.sshConfig sshCfg]

/-- Lines 261–264: the host used for SNI/Host-header purposes — the `host`
option when present, the node's own host otherwise. -/
def chainHost (node : Node) : String :=
  if node.get "host" = "" then node.host else node.get "host"

/-- Lines 266–301: the dial options, connect options, client (connector +
transporter pair) and bypass rules written onto the base node. -/
def enrichChainNode (env : Env) (node : Node) (tr : Transporter) : Node :=
  { node with
      dialOptions :=
        node.dialOptions ++
          [DialOption.timeoutD (node.getDuration "timeout"),
           DialOption.hostD (chainHost node)]
      connectOptions :=
        [ConnectOption.userAgent (node.get "agent"),
         ConnectOption.noTLS (node.getBool "notls"),
         ConnectOption.noDelay (node.getBool "nodelay")]
      client := some { connector := selectConnector node, transporter := tr }
      bypass := env.parseBypass (node.get "bypass") }

/-- Lines 303–315: IP fan-out.  Each resolved IP yields a clone of the base
node dialing that address (with an extra `AddrHandshakeOption`); with no
resolved IPs the base node alone, carrying the plain handshake options, is
the result. -/
def expandIPs (env : Env) (node : Node) (hso : List HandshakeOption)
    (sport : String) : List Node :=
  if env.parseIP (node.get "ip") sport = [] then
    [{ node with handshakeOptions := hso }]
  else
    (env.parseIP (node.get "ip") sport).map fun ip =>
      { node with addr := ip, handshakeOptions := hso ++ [HandshakeOption.addr ip] }

/-- The `for i := range nodes` loop of lines 318–322: run `Obfs4Init` on
each node in order, stopping at the first failure. -/
def obfs4InitList (env : Env) : List Node → Except Err Unit
  | [] => pure ()
  | nd :: rest => do
      let _ ← env.obfs4Init nd false
      obfs4InitList env rest

/-- Lines 317–323: for the obfs4 transport, run the out-of-band `Obfs4Init`
negotiation for every node, aborting on the first failure. -/
def obfs4InitAll (env : Env) (transport : String) (nodes : List Node) :
    Except Err (List Node) :=
  if transport = "obfs4" then do
    let _ ← obfs4InitList env nodes
    pure nodes
  else pure nodes

/-- The TLS configuration a chain node ends up with: the base configuration
(server name, verification mode, CA pool, manual verification) with the
best-effort client certificate attached. -/
def chainTLSConfig (env : Env) (rootCAs : Option CertPool) (node : Node) :
    TLSConfig :=
  attachClientCert env
    (baseChainTLS (hostOrLocalhost (env.splitHostPort node.addr).1) rootCAs node)
    (node.get "cert") (node.get "key")

/-- Lines 95–326 of `route.go`: `parseChainNode`. -/
def parseChainNode (env : Env) (ns : String) : Except Err (List Node) := do
  let node ← env.parseNode ns
  let node ← resolveAuth env node
  let rootCAs ← env.loadCA (node.get "ca")
  let tlsCfg := chainTLSConfig env rootCAs node
  let tr ← selectTransporter env node tlsCfg (chainWSOptions node)
  let sshCfg ← buildSSHConfig env node
  let hso :=
    chainHandshakeOptions node (chainHost node) tlsCfg
      (node.getDuration "timeout") sshCfg
  obfs4InitAll env node.transport
    (expandIPs env (enrichChainNode env node tr) hso
      (env.splitHostPort node.addr).2)

/-- Lines 56–60: number a group's nodes sequentially starting from the
given first ID. -/
def assignIDs : Nat → List Node → List Node
  | _, [] => []
  | nid, n :: rest => { n with id := nid } :: assignIDs (nid + 1) rest

/-- Lines 46–89: build one `NodeGroup` from one chain-node spec — parse the
nodes, number them from 1, configure the selector from the first node's
options and, for a non-empty `peer` option, open the peer file (its
synchronous `Reload` and the background `PeriodReload` goroutine are
runtime effects that do not contribute to the constructed value; only the
`os.Open` error path does).  The first-node reads model Go's `nodes[0]`
indexing, whose panic on an empty slice is an explicit error here. -/
def buildGroup (env : Env) (gid : Nat) (ns : String) : Except Err NodeGroup := do
  let nodes ← parseChainNode env ns
  let numbered := assignIDs 1 nodes
  let first ←
    match numbered.head? with
    | some n => pure n
    | none => Except.error "panic: index out of range"
  let sel : SelectorCfg :=
    { maxFails := first.getInt "max_fails"
      failTimeout := first.getDuration "fail_timeout"
      strategy := first.get "strategy" }
  if first.get "peer" ≠ "" then do
    let _ ← env.openPeerFile (first.get "peer")
    pure { id := gid, nodes := numbered, selector := sel }
  else
    pure { id := gid, nodes := numbered, selector := sel }

/-- The `for _, ns := range r.ChainNodes` loop of `parseChain`, with the
group ID counter threaded explicitly (it starts at 1 and increments once
per spec). -/
def buildGroups (env : Env) : Nat → List String → Except Err (List NodeGroup)
  | _, [] => pure []
  | gid, ns :: rest => do
      let g ← buildGroup env gid ns
      let gs ← buildGroups env (gid + 1) rest
      pure (g :: gs)

/-- Lines 38–93 of `route.go`: `(*route).parseChain`. -/
def parseChain (env : Env) (r : route) : Except Err Chain := do
  let groups ← buildGroups env 1 r.chainNodes
  pure { retries := r.retries, mark := r.mark, iface := r.iface, groups := groups }

/-- Model of the gost library's `Chain.LastNode`: the representative node
of the final hop (the zero Node when the chain is empty). -/
def Chain.lastNode (c : Chain) : Node :=
  match c.groups.getLast? with
  | none => {}
  | some g => g.nodes.headD {}

/-- Apply a function to the last element of a list, if any. -/
def setLast {α : Type} (f : α → α) : List α → List α
  | [] => []
  | [a] => [f a]
  | a :: b :: rest => a :: setLast f (b :: rest)

/-- Model of `chain.Nodes()[len(chain.Nodes())-1].Client.{Connector,Transporter} = ..`:
replace the client of the chain's last node in place. -/
def substLastClient (c : Chain) (conn : Connector) (tr : Transporter) : Chain :=
  { c with
      groups := setLast (fun g =>
        { g with nodes := setLast (fun n =>
            { n with client := some { connector := conn, transporter := tr } }) g.nodes }) c.groups }

/-- Lines 369–373: the serve-side TLS configuration is built by the
`tlsConfig` helper; its failure aborts only when both a `cert` and a `key`
option are present, and is otherwise swallowed, leaving no configuration. -/
def serveTLSConfig (env : Env) (node : Node) : Except Err (Option TLSConfig) :=
  match env.tlsConfigServe (node.get "cert") (node.get "key") (node.get "ca") with
  | Except.ok c => pure (some c)
  | Except.error e =>
      if node.get "cert" ≠ "" ∧ node.get "key" ≠ "" then Except.error e
      else pure none

/-- Lines 375–379: the WebSocket options derived from a serve node (no
user-agent is set on this path). -/
def serveWSOptions (node : Node) : WSOptions :=
  { enableCompression := node.getBool "compression"
    readBufferSize := node.getInt "rbuf"
    writeBufferSize := node.getInt "wbuf"
    userAgent := ""
    path := node.get "path" }

/-- Lines 384–390: parsed tunnel routes with the `gw` option as the default
gateway for routes that name none. -/
def applyDefaultGateway (routes : List IPRoute) (gw : Option String) :
    List IPRoute :=
  routes.map fun rt =>
    match rt.gateway with
    | none => { rt with gateway := gw }
    | some _ => rt

/-- The UDP listen configuration shared by the udp/rudp/ftcp/redu branches. -/
def udpListenCfg (node : Node) (ttl : Duration) : UDPListenConfig :=
  { ttl := ttl, backlog := node.getInt "backlog", queueSize := node.getInt "queue" }

/-- Message of the error returned when `net.InterfaceByName` fails. -/
def ifaceLookupErr (ifName : String) : Err :=
  "your interface " ++ ifName ++ " is error"

/-- Message of the error returned when `Interface.Addrs()` fails. -/
def ifaceAddrsErr (ifName : String) : Err :=
  "your interface " ++ ifName ++ " is does not have address"

/-- Message of the error returned when no address of the interface is IPv4
(the apostrophe of the source's message is spelled by code point). -/
def ifaceNoIPv4Err (ifName : String) : Err :=
  "your interface " ++ ifName ++ " don" ++ String.singleton (Char.ofNat 39)
    ++ "t have an ipv4 address\n"

/-- Lines 455–492 of `route.go` (the XMOD block inside the `"tcp"` listener
branch): when a `sourceInterface` option is present, replace the listen
address's host with the interface's first IPv4 address, keeping the
resolved port (and zone); fail with a descriptive error when the interface
cannot be looked up, its addresses cannot be read, or none of them is
IPv4. -/
def applySourceInterface (env : Env) (node : Node) : Except Err String :=
  let ifName := node.get "sourceInterface"
  if ifName = "" then pure node.addr
  else
    match env.interfaceByName ifName with
    | none => Except.error (ifaceLookupErr ifName)
    | some ief =>
        match env.interfaceAddrs ief with
        | Except.error _ => Except.error (ifaceAddrsErr ifName)
        | Except.ok addrs =>
            match addrs.findSome? NetAddr.toV4 with
            | none => Except.error (ifaceNoIPv4Err ifName)
            | some ipv4 => do
                let laddr ← env.resolveTCPAddr node.addr
                pure (tcpAddrString ipv4 laddr.port laddr.zone)

/-- Lines 406–417: the KCP configuration of the serve-side `kcp` branch —
a parsed config when one is given, otherwise the library default with its
`TCP` flag forced on when the `tcp` option is set. -/
def kcpListenerConfig (env : Env) (node : Node) : Except Err KCPConfig := do
  let cfgOpt ← env.parseKCPConfig (node.get "c")
  match cfgOpt with
  | some c => pure c
  | none =>
      if node.getBool "tcp" then pure { DefaultKCPConfig with tcp := true }
      else pure DefaultKCPConfig

/-- Lines 419–437: the SSH configuration of the serve-side `ssh` branch —
the authenticator and TLS config plus optional key material and authorized
keys parsed from files, aborting on a parse failure. -/
def sshListenerConfig (env : Env) (node : Node)
    (authenticator : Option Authenticator) (tlsCfg : Option TLSConfig) :
    Except Err SSHConfig := do
  let cfg : SSHConfig := { authenticator := authenticator, tlsConfig := tlsCfg }
  let cfg ←
    if node.get "ssh_key" ≠ "" then do
      let key ← env.parseSSHKeyFile (node.get "ssh_key")
      pure { cfg with key := some key }
    else pure cfg
  if node.get "ssh_authorized_keys" ≠ "" then do
    let keys ← env.parseSSHAuthorizedKeysFile (node.get "ssh_authorized_keys")
    pure { cfg with authorizedKeys := keys }
  else pure cfg

/-- Lines 392–570: the listener-construction switch of `GenRouters`,
returning the (possibly client-substituted) chain together with a record of
the gost Listener constructor invoked and its arguments.  The default
branch is a plain TCP listener on the node's address. -/
def buildListener (env : Env) (chain : Chain) (node : Node)
    (authenticator : Option Authenticator) (tlsCfg : Option TLSConfig)
    (wsOpts : WSOptions) (tunRoutes : List IPRoute) (ttl : Duration) :
    Except Err (Chain × ListenerCall) :=
  match node.transport with
  | "tls" => pure (chain, ListenerCall.tls node.addr tlsCfg)
  | "mtls" => pure (chain, ListenerCall.mtls node.addr tlsCfg)
  | "ws" => pure (chain, ListenerCall.ws node.addr wsOpts)
  | "mws" => pure (chain, ListenerCall.mws node.addr wsOpts)
  | "wss" => pure (chain, ListenerCall.wss node.addr tlsCfg wsOpts)
  | "mwss" => pure (chain, ListenerCall.mwss node.addr tlsCfg wsOpts)
  | "kcp" => do
      let config ← kcpListenerConfig env node
      pure (chain, ListenerCall.kcp node.addr config)
  | "ssh" => do
      let cfg ← sshListenerConfig env node authenticator tlsCfg
      if node.protocol = "forward" then pure (chain, ListenerCall.tcp node.addr)
      else pure (chain, ListenerCall.sshTunnel node.addr cfg)
  | "http2" => pure (chain, ListenerCall.http2 node.addr tlsCfg)
  | "h2" => pure (chain, ListenerCall.h2 node.addr tlsCfg (node.get "path"))
  | "h2c" => pure (chain, ListenerCall.h2c node.addr (node.get "path"))
  | "tcp" => do
      let chain :=
        if chain.lastNode.protocol = "forward" ∧ chain.lastNode.transport = "ssh" then
          substLastClient chain Connector.sshDirect Transporter.sshForward
        else chain
      let addr ← applySourceInterface env node
      pure (chain, ListenerCall.tcp addr)
  | "vsock" => pure (chain, ListenerCall.vsock node.addr)
  | "udp" => pure (chain, ListenerCall.udp node.addr (udpListenCfg node ttl))
  | "rtcp" =>
      let chain :=
        if chain.lastNode.protocol = "forward" ∧ chain.lastNode.transport = "ssh" then
          substLastClient chain Connector.sshRemote Transporter.sshForward
        else chain
      pure (chain, ListenerCall.rtcp node.addr)
  | "rudp" => pure (chain, ListenerCall.rudp node.addr (udpListenCfg node ttl))
  | "obfs4" => do
      let _ ← env.obfs4Init node true
      pure (chain, ListenerCall.obfs4 node.addr)
  | "ohttp" => pure (chain, ListenerCall.ohttp node.addr)
  | "otls" => pure (chain, ListenerCall.otls node.addr)
  | "tun" =>
      pure (chain, ListenerCall.tun
        { name := node.get "name", addr := node.get "net", peer := node.get "peer"
          mtu := node.getInt "mtu", routes := tunRoutes, gateway := node.get "gw" })
  | "tap" =>
      pure (chain, ListenerCall.tap
        { name := node.get "name", addr := node.get "net", mtu := node.getInt "mtu"
          routes := (node.get "route").splitOn ",", gateway := node.get "gw" })
  | "ftcp" => pure (chain, ListenerCall.ftcp node.addr (udpListenCfg node ttl))
  | "dns" => pure (chain, ListenerCall.dns node.addr (node.get "mode") tlsCfg)
  | "redu" => pure (chain, ListenerCall.redu node.addr (udpListenCfg node ttl))
  | "redirectu" => pure (chain, ListenerCall.redu node.addr (udpListenCfg node ttl))
  | _ => pure (chain, ListenerCall.tcp node.addr)

/-- The protocol keys `GenRouters`' handler switch recognizes explicitly. -/
def serveProtocolKeys : List String :=
  ["http2", "socks", "socks5", "socks4", "socks4a", "ss", "http", "tcp",
   "rtcp", "udp", "rudp", "forward", "red", "redirect", "redu", "redirectu",
   "ssu", "sni", "tun", "tap", "dns", "relay"]

/-- Lines 575–620: Handler selection by protocol key; the default branch is
the plain TCP direct-forward handler when a remote target is configured and
the auto-detecting handler otherwise. -/
def selectHandler (node : Node) : Handler :=
  match node.protocol with
  | "http2" => Handler.http2
  | "socks" => Handler.socks5
  | "socks5" => Handler.socks5
  | "socks4" => Handler.socks4
  | "socks4a" => Handler.socks4
  | "ss" => Handler.ss
  | "http" => Handler.http
  | "tcp" => Handler.tcpDirect node.remote
  | "rtcp" => Handler.tcpRemote node.remote
  | "udp" => Handler.udpDirect node.remote
  | "rudp" => Handler.udpRemote node.remote
  | "forward" => Handler.sshForward
  | "red" => Handler.tcpRedirect
  | "redirect" => Handler.tcpRedirect
  | "redu" => Handler.udpRedirect
  | "redirectu" => Handler.udpRedirect
  | "ssu" => Handler.ssu
  | "sni" => Handler.sni
  | "tun" => Handler.tun
  | "tap" => Handler.tap
  | "dns" => Handler.dns node.remote
  | "relay" => Handler.relay node.remote
  | _ =>
      if node.remote ≠ "" then Handler.tcpDirect node.remote
      else Handler.auto

/-- The `router` struct assembled per serve node.  Go stores a pointer to
the one shared chain; here its value at assembly time is recorded (the
handler's `Init` calls configure the external handler at runtime and do not
contribute further constructed state). -/
structure router where
  node : Node
  listenerCall : ListenerCall
  listenAddr : String
  handler : Handler
  chain : Chain
  resolver : Option Resolver
  hosts : Option Hosts
deriving DecidableEq, Repr

/-- Lines 336–694: the body of `GenRouters`' serve-node loop for one spec,
threading the shared chain (mutated by the tcp/rtcp SSH-forward
substitution). -/
def serveAuthenticator (auth0 : Option Authenticator) (node : Node) :
    Option Authenticator :=
  match auth0, node.user with
  | none, some u => some (Authenticator.localAuth [(u.name, u.pass.getD "")])
  | a, _ => a

/-- Lines 364–368: when the node still has no credential, silently take the
first entry of the secrets file if parsing yields any (errors are discarded
on this path, unlike the chain-node path). -/
def userFallback (env : Env) (node : Node) : Node :=
  if node.user = none then
    match env.parseUsers (node.get "secrets") with
    | Except.ok (u :: _) => { node with user := some u }
    | _ => node
  else node

def genRouter (env : Env) (chain : Chain) (ns : String) :
    Except Err (Chain × router) := do
  let node ← env.parseNode ns
  let node ← applyAuthOption env node
  let auth0 ← env.parseAuthenticator (node.get "secrets")
  let authenticator := serveAuthenticator auth0 node
  let node := userFallback env node
  let tlsCfg ← serveTLSConfig env node
  let wsOpts := serveWSOptions node
  let ttl := node.getDuration "ttl"
  let tunRoutes :=
    applyDefaultGateway (env.parseIPRoutes (node.get "route"))
      (env.parseIPAddr (node.get "gw"))
  let (chain, lnCall) ←
    buildListener env chain node authenticator tlsCfg wsOpts tunRoutes ttl
  let lnAddr ← env.listen lnCall
  let handler := selectHandler node
  let _ ←
    if node.get "whitelist" ≠ "" then
      (env.parsePermissions (node.get "whitelist")).map fun _ => ()
    else pure ()
  let _ ←
    if node.get "blacklist" ≠ "" then
      (env.parsePermissions (node.get "blacklist")).map fun _ => ()
    else pure ()
  let node := { node with bypass := env.parseBypass (node.get "bypass") }
  let hosts := env.parseHosts (node.get "hosts")
  let resolver := env.parseResolver (node.get "dns")
  pure (chain,
    { node := node, listenerCall := lnCall, listenAddr := lnAddr
      handler := handler, chain := chain, resolver := resolver, hosts := hosts })

/-- The `for _, ns := range r.ServeNodes` loop of `GenRouters`. -/
def genRouterList (env : Env) (chain : Chain) : List String →
    Except Err (Chain × List router)
  | [] => pure (chain, [])
  | ns :: rest => do
      let (chain, rt) ← genRouter env chain ns
      let (chain, rts) ← genRouterList env chain rest
      pure (chain, rt :: rts)

/-- Lines 328–697 of `route.go`: `(*route).GenRouters`. -/
def GenRouters (env : Env) (r : route) : Except Err (List router) := do
  let chain ← parseChain env r
  let (_, rts) ← genRouterList env chain r.serveNodes
  pure rts

/-- Replace only the client-certificate loader of an environment. -/
def Env.setKeyPair (e : Env) (f : String → String → Except Err Cert) : Env :=
  { e with loadX509KeyPair := f }

/-- Replace only the network-interface machinery of an environment
(`net.InterfaceByName`, `Interface.Addrs`, `net.ResolveTCPAddr`). -/
def Env.setIfaceEnv (e : Env) (ibn : String → Option NetInterface)
    (ia : NetInterface → Except Err (List NetAddr))
    (rta : String → Except Err TCPAddr) : Env :=
  { e with interfaceByName := ibn, interfaceAddrs := ia, resolveTCPAddr := rta }

/-- A concrete environment used to evaluate the embedding on concrete
inputs.  Spec strings are symbolic keys; the external parsers answer only
for the fixtures below and fail otherwise. -/
def testEnv : Env where
  parseNode := fun s =>
    if s = "cn1" then
      Except.ok { addr := "10.0.0.1:1080", host := "10.0.0.1",
                  protocol := "socks5", transport := "tls",
                  user := some ⟨"u", some "p"⟩ }
    else if s = "cn2" then
      Except.ok { addr := "example.com:8443", host := "example.com",
                  protocol := "http", transport := "tls",
                  values := [("ip", "1.2.3.4,1.2.3.5"), ("ca", "ca.pem")] }
    else if s = "cn3" then
      Except.ok { addr := "10.0.0.2:443", host := "10.0.0.2",
                  protocol := "http", transport := "tls",
                  values := [("cert", "missing.crt"), ("key", "missing.key")] }
    else if s = "sv1" then
      Except.ok { addr := ":8080", protocol := "socks5", transport := "tcp",
                  values := [("sourceInterface", "eth7")] }
    else if s = "sv2" then
      Except.ok { addr := ":9090", protocol := "socks5", transport := "udp",
                  values := [("sourceInterface", "eth7")] }
    else Except.error "invalid node"
  base64Decode := fun s =>
    if s = "dTpw" then Except.ok "u:p" else Except.error "illegal base64 data"
  parseUsers := fun s =>
    if s = "" then Except.ok []
    else if s = "secrets.txt" then Except.ok [⟨"su", some "sp"⟩]
    else Except.error "open secrets"
  splitHostPort := fun a =>
    if a = "10.0.0.1:1080" then ("10.0.0.1", "1080")
    else if a = "example.com:8443" then ("example.com", "8443")
    else if a = "10.0.0.2:443" then ("10.0.0.2", "443")
    else if a = ":8080" then ("", "8080")
    else if a = ":9090" then ("", "9090")
    else ("", "")
  loadCA := fun s =>
    if s = "" then Except.ok none
    else if s = "ca.pem" then Except.ok (some "capool")
    else Except.error "open ca"
  loadX509KeyPair := fun c k =>
    if c = "client.crt" ∧ k = "client.key" then Except.ok "clientcert"
    else Except.error "open cert"
  parseKCPConfig := fun _ => Except.ok none
  parseSSHKeyFile := fun _ => Except.error "open ssh key"
  parseSSHAuthorizedKeysFile := fun _ => Except.error "open authorized keys"
  obfs4Init := fun _ _ => Except.ok ()
  parseIP := fun s port =>
    if s = "1.2.3.4,1.2.3.5" ∧ port = "8443" then ["1.2.3.4:8443", "1.2.3.5:8443"]
    else []
  parseBypass := fun _ => none
  certVerify := fun _ _ => Except.ok ()
  openPeerFile := fun _ => Except.error "open peer"
  parseAuthenticator := fun _ => Except.ok none
  tlsConfigServe := fun _ _ _ => Except.error "tls: no PEM data"
  parseIPRoutes := fun _ => []
  parseIPAddr := fun _ => none
  parseHosts := fun _ => none
  parseResolver := fun _ => none
  parsePermissions := fun _ => Except.error "bad permissions"
  interfaceByName := fun _ => none
  interfaceAddrs := fun _ => Except.error "no addresses"
  resolveTCPAddr := fun a =>
    if a = ":8080" then Except.ok ⟨"", 8080, ""⟩ else Except.error "resolve"
  listen := fun _ => Except.ok "bound"

/-- `testEnv` with the interface `eth7` present and holding a non-IPv4
address followed by an IPv4 one. -/
def testEnvIface : Env :=
  testEnv.setIfaceEnv (fun n => if n = "eth7" then some "eth7" else none)
    (fun _ => Except.ok [⟨none⟩, ⟨some "100.64.0.7"⟩])
    (fun a => if a = ":8080" then Except.ok ⟨"", 8080, ""⟩ else Except.error "resolve")

lemma obfs4InitList_ok_forall {env : Env} :
    ∀ {l : List Node}, obfs4InitList env l = Except.ok () →
      ∀ nd ∈ l, env.obfs4Init nd false = Except.ok () := by
  intro l
  induction l with
  | nil => intro _ nd hnd; cases hnd
  | cons a as ih =>
      intro h nd hnd
      unfold obfs4InitList at h
      cases hfa : env.obfs4Init a false with
      | error e => rw [hfa] at h; simp [bind, Except.bind] at h
      | ok u =>
          rw [hfa] at h
          simp only [bind, Except.bind] at h
          cases hnd with
          | head => cases u; exact hfa
          | tail _ hmem => exact ih h nd hmem

lemma obfs4InitAll_ok {env : Env} {t : String} {l l' : List Node}
    (h : obfs4InitAll env t l = Except.ok l') : l' = l := by
  unfold obfs4InitAll at h
  split at h
  · cases hf : obfs4InitList env l with
    | error e => rw [hf] at h; simp [bind, Except.bind] at h
    | ok u =>
        rw [hf] at h
        simp only [bind, Except.bind, pure, Except.pure] at h
        exact (Except.ok.inj h).symm
  · simp only [pure, Except.pure] at h
    exact (Except.ok.inj h).symm

lemma obfs4InitAll_obfs4 {env : Env} {l l' : List Node}
    (h : obfs4InitAll env "obfs4" l = Except.ok l') :
    ∀ nd ∈ l, env.obfs4Init nd false = Except.ok () := by
  unfold obfs4InitAll at h
  simp only [if_pos rfl] at h
  cases hf : obfs4InitList env l with
  | error e => rw [hf] at h; simp [bind, Except.bind] at h
  | ok u => cases u; exact obfs4InitList_ok_forall hf

lemma expandIPs_ne_nil (env : Env) (n : Node) (hso : List HandshakeOption)
    (sport : String) : expandIPs env n hso sport ≠ [] := by
  unfold expandIPs
  split
  · simp
  · rename_i hips
    intro hc
    exact hips (List.map_eq_nil_iff.mp hc)

/-- Master inversion for `parseChainNode`: a successful run pins down every
intermediate step and the shape of the result. -/
lemma parseChainNode_inv {env : Env} {ns : String} {nodes : List Node}
    (h : parseChainNode env ns = Except.ok nodes) :
    ∃ n0 nA rootCAs tr sshCfg,
      env.parseNode ns = Except.ok n0 ∧
      resolveAuth env n0 = Except.ok nA ∧
      env.loadCA (nA.get "ca") = Except.ok rootCAs ∧
      selectTransporter env nA (chainTLSConfig env rootCAs nA) (chainWSOptions nA)
        = Except.ok tr ∧
      buildSSHConfig env nA = Except.ok sshCfg ∧
      nodes =
        expandIPs env (enrichChainNode env nA tr)
          (chainHandshakeOptions nA (chainHost nA) (chainTLSConfig env rootCAs nA)
            (nA.getDuration "timeout") sshCfg)
          (env.splitHostPort nA.addr).2 ∧
      (nA.transport = "obfs4" → ∀ nd ∈ nodes, env.obfs4Init nd false = Except.ok ()) := by
  unfold parseChainNode at h
  cases h0 : env.parseNode ns with
  | error e => rw [h0] at h; simp [bind, Except.bind] at h
  | ok n0 =>
  rw [h0] at h; simp only [bind, Except.bind] at h
  cases h1 : resolveAuth env n0 with
  | error e => rw [h1] at h; simp [Except.bind] at h
  | ok nA =>
  rw [h1] at h; simp only [Except.bind] at h
  cases h2 : env.loadCA (nA.get "ca") with
  | error e => rw [h2] at h; simp [Except.bind] at h
  | ok rootCAs =>
  rw [h2] at h; simp only [Except.bind] at h
  cases h3 : selectTransporter env nA (chainTLSConfig env rootCAs nA) (chainWSOptions nA) with
  | error e => rw [h3] at h; simp [Except.bind] at h
  | ok tr =>
  rw [h3] at h; simp only [Except.bind] at h
  cases h4 : buildSSHConfig env nA with
  | error e => rw [h4] at h; simp [Except.bind] at h
  | ok sshCfg =>
  rw [h4] at h; simp only [Except.bind] at h
  refine ⟨n0, nA, rootCAs, tr, sshCfg, rfl, h1, h2, h3, h4, ?_, ?_⟩
  · exact obfs4InitAll_ok h
  · intro ht
    rw [ht] at h
    have := obfs4InitAll_obfs4 h
    rw [obfs4InitAll_ok h]
    exact this

/-- C10 — For every chain-node spec on which `parseChainNode` succeeds, the
returned node list is non-empty (the single base node or at least one
IP-expanded node), so `parseChain`'s reads of the group's first node never
index an empty list. -/
theorem parseChainNode_nonempty (env : Env) (ns : String) (nodes : List Node)
    (h : parseChainNode env ns = Except.ok nodes) : nodes ≠ [] := by
  obtain ⟨n0, nA, rootCAs, tr, sshCfg, _, _, _, _, _, hshape, _⟩ :=
    parseChainNode_inv h
  rw [hshape]
  exact expandIPs_ne_nil _ _ _ _

theorem parseChainNode_nonempty_witness :
    (parseChainNode testEnv "cn1").toOption.getD [] ≠ [] :=
  parseChainNode_nonempty testEnv "cn1" _ (by rfl)

lemma assignIDs_length : ∀ (k : Nat) (l : List Node),
    (assignIDs k l).length = l.length := by
  intro k l
  induction l generalizing k with
  | nil => rfl
  | cons a as ih => simp [assignIDs, ih]

lemma assignIDs_map_id : ∀ (k : Nat) (l : List Node),
    (assignIDs k l).map Node.id = List.range' k l.length := by
  intro k l
  induction l generalizing k with
  | nil => rfl
  | cons a as ih => simp [assignIDs, List.range'_succ, ih]

lemma buildGroup_inv {env : Env} {gid : Nat} {ns : String} {g : NodeGroup}
    (h : buildGroup env gid ns = Except.ok g) :
    ∃ nodes, parseChainNode env ns = Except.ok nodes ∧
      g.id = gid ∧ g.nodes = assignIDs 1 nodes := by
  unfold buildGroup at h
  cases hp : parseChainNode env ns with
  | error e => rw [hp] at h; simp [bind, Except.bind] at h
  | ok nodes =>
  rw [hp] at h; simp only [bind, Except.bind] at h
  refine ⟨nodes, rfl, ?_⟩
  cases hh : (assignIDs 1 nodes).head? with
  | none => rw [hh] at h; simp [bind, Except.bind] at h
  | some first =>
  rw [hh] at h; simp only [bind, Except.bind, pure, Except.pure] at h
  split at h
  · cases ho : env.openPeerFile (first.get "peer") with
    | error e => rw [ho] at h; simp [bind, Except.bind] at h
    | ok u =>
        rw [ho] at h
        cases Except.ok.inj h
        exact ⟨rfl, rfl⟩
  · cases Except.ok.inj h
    exact ⟨rfl, rfl⟩

lemma buildGroups_spec {env : Env} :
    ∀ (gid : Nat) (l : List String) (gs : List NodeGroup),
      buildGroups env gid l = Except.ok gs →
      gs.length = l.length ∧
      gs.map NodeGroup.id = List.range' gid l.length ∧
      ∀ g ∈ gs, g.nodes.map Node.id = List.range' 1 g.nodes.length := by
  intro gid l
  induction l generalizing gid with
  | nil =>
      intro gs h
      simp only [buildGroups, pure, Except.pure] at h
      cases Except.ok.inj h
      exact ⟨rfl, rfl, by intro g hg; cases hg⟩
  | cons ns rest ih =>
      intro gs h
      unfold buildGroups at h
      cases hg : buildGroup env gid ns with
      | error e => rw [hg] at h; simp [bind, Except.bind] at h
      | ok g =>
      rw [hg] at h; simp only [bind, Except.bind] at h
      cases hgs : buildGroups env (gid + 1) rest with
      | error e => rw [hgs] at h; simp [bind, Except.bind] at h
      | ok gs0 =>
      rw [hgs] at h; simp only [bind, Except.bind, pure, Except.pure] at h
      cases Except.ok.inj h
      obtain ⟨hlen, hids, hnodes⟩ := ih (gid + 1) gs0 hgs
      obtain ⟨nodes, hp, hid, hn⟩ := buildGroup_inv hg
      refine ⟨by simp [hlen], ?_, ?_⟩
      · simp only [List.length_cons, List.range'_succ, List.map_cons, hids, hid]
      · intro g0 hg0
        cases hg0 with
        | head =>
            rw [hn, assignIDs_map_id, assignIDs_length]
        | tail _ hmem => exact hnodes g0 hmem

/-- C6 — For every route whose chain parses, `parseChain` produces one
group per chain-node spec in spec order, the k-th group's ID is k
(1-based), and the nodes within each group carry IDs 1..n in spec order. -/
theorem parseChain_ids_spec (env : Env) (r : route) (chain : Chain)
    (h : parseChain env r = Except.ok chain) :
    chain.groups.length = r.chainNodes.length ∧
    chain.groups.map NodeGroup.id = List.range' 1 r.chainNodes.length ∧
    ∀ g ∈ chain.groups, g.nodes.map Node.id = List.range' 1 g.nodes.length := by
  unfold parseChain at h
  cases hg : buildGroups env 1 r.chainNodes with
  | error e => rw [hg] at h; simp [bind, Except.bind] at h
  | ok gs =>
      rw [hg] at h; simp only [bind, Except.bind, pure, Except.pure] at h
      cases Except.ok.inj h
      exact buildGroups_spec 1 r.chainNodes gs hg

theorem parseChain_ids_spec_witness :
    ((parseChain testEnv { chainNodes := ["cn1"] }).toOption.getD
        { retries := 0, mark := 0, iface := "", groups := [] }).groups.length = 1 ∧
    ((parseChain testEnv { chainNodes := ["cn1"] }).toOption.getD
        { retries := 0, mark := 0, iface := "", groups := [] }).groups.map
      NodeGroup.id = [1] :=
  ⟨(parseChain_ids_spec testEnv { chainNodes := ["cn1"] } _ (by rfl)).1,
   (parseChain_ids_spec testEnv { chainNodes := ["cn1"] } _ (by rfl)).2.1⟩

/-- C5 — A successful `parseChainNode` run yields exactly one clone of the
(fully enriched) base node per resolved IP, each dialing that address, with
the base node itself absent; and exactly the base node when no IP resolves. -/
theorem ip_expansion_spec (env : Env) (ns : String) (nodes : List Node)
    (h : parseChainNode env ns = Except.ok nodes) :
    ∃ (base : Node) (hso : List HandshakeOption) (sport : String),
      (env.parseIP (base.get "ip") sport = [] →
         nodes = [{ base with handshakeOptions := hso }]) ∧
      (env.parseIP (base.get "ip") sport ≠ [] →
         nodes = (env.parseIP (base.get "ip") sport).map fun ip =>
           { base with addr := ip,
                       handshakeOptions := hso ++ [HandshakeOption.addr ip] }) ∧
      (env.parseIP (base.get "ip") sport ≠ [] →
         nodes.map Node.addr = env.parseIP (base.get "ip") sport) := by
  obtain ⟨n0, nA, rootCAs, tr, sshCfg, _, _, _, _, _, hshape, _⟩ :=
    parseChainNode_inv h
  refine ⟨enrichChainNode env nA tr,
    chainHandshakeOptions nA (chainHost nA) (chainTLSConfig env rootCAs nA)
      (nA.getDuration "timeout") sshCfg,
    (env.splitHostPort nA.addr).2, ?_, ?_, ?_⟩
  · intro h0; rw [hshape]; unfold expandIPs; rw [if_pos h0]
  · intro h0; rw [hshape]; unfold expandIPs; rw [if_neg h0]
  · intro h0; rw [hshape]; unfold expandIPs; rw [if_neg h0]
    simp [List.map_map, Function.comp_def]

theorem ip_expansion_spec_witness :
    ∃ (base : Node) (hso : List HandshakeOption) (sport : String),
      (testEnv.parseIP (base.get "ip") sport = [] →
         (parseChainNode testEnv "cn2").toOption.getD [] =
           [{ base with handshakeOptions := hso }]) ∧
      (testEnv.parseIP (base.get "ip") sport ≠ [] →
         (parseChainNode testEnv "cn2").toOption.getD [] =
           (testEnv.parseIP (base.get "ip") sport).map fun ip =>
             { base with addr := ip,
                         handshakeOptions := hso ++ [HandshakeOption.addr ip] }) ∧
      (testEnv.parseIP (base.get "ip") sport ≠ [] →
         ((parseChainNode testEnv "cn2").toOption.getD []).map Node.addr =
           testEnv.parseIP (base.get "ip") sport) :=
  ip_expansion_spec testEnv "cn2" _ (by rfl)

lemma applyAuthOption_shape {env : Env} {node nB : Node}
    (h : applyAuthOption env node = Except.ok nB) :
    nB = { node with user := nB.user } := by
  unfold applyAuthOption at h
  split at h
  · cases hd : env.base64Decode (node.get "auth") with
    | error e => rw [hd] at h; simp [bind, Except.bind] at h
    | ok cs =>
        rw [hd] at h; simp only [bind, Except.bind, pure, Except.pure] at h
        cases Except.ok.inj h
        rfl
  · simp only [pure, Except.pure] at h
    cases Except.ok.inj h
    rfl

lemma applyAuthOption_ok_inv {env : Env} {node nB : Node}
    (h : applyAuthOption env node = Except.ok nB) :
    node.get "auth" ≠ "" ∧ node.user = none →
      ∃ cs, env.base64Decode (node.get "auth") = Except.ok cs := by
  intro hc
  unfold applyAuthOption at h
  rw [if_pos hc] at h
  cases hd : env.base64Decode (node.get "auth") with
  | error e => rw [hd] at h; simp [bind, Except.bind] at h
  | ok cs => exact ⟨cs, rfl⟩

lemma resolveAuth_ok_inv {env : Env} {node nA : Node}
    (h : resolveAuth env node = Except.ok nA) :
    ∃ nB, applyAuthOption env node = Except.ok nB ∧
      (nB.user = none → ∃ us, env.parseUsers (nB.get "secrets") = Except.ok us) := by
  unfold resolveAuth at h
  cases ha : applyAuthOption env node with
  | error e => rw [ha] at h; simp [bind, Except.bind] at h
  | ok nB =>
  rw [ha] at h; simp only [bind, Except.bind] at h
  refine ⟨nB, rfl, ?_⟩
  intro hu
  rw [if_pos hu] at h
  cases hp : env.parseUsers (nB.get "secrets") with
  | error e => rw [hp] at h; simp [bind, Except.bind] at h
  | ok us => exact ⟨us, rfl⟩

lemma resolveAuth_shape {env : Env} {node nA : Node}
    (h : resolveAuth env node = Except.ok nA) :
    nA = { node with user := nA.user } := by
  unfold resolveAuth at h
  cases ha : applyAuthOption env node with
  | error e => rw [ha] at h; simp [bind, Except.bind] at h
  | ok nB =>
  rw [ha] at h; simp only [bind, Except.bind] at h
  have hB := applyAuthOption_shape ha
  split at h
  · cases hp : env.parseUsers (nB.get "secrets") with
    | error e => rw [hp] at h; simp [bind, Except.bind] at h
    | ok us =>
        rw [hp] at h; simp only [bind, Except.bind] at h
        cases us with
        | nil =>
            simp only [pure, Except.pure] at h
            cases Except.ok.inj h
            exact hB
        | cons u rest =>
            simp only [pure, Except.pure] at h
            cases Except.ok.inj h
            rw [hB]
  · simp only [pure, Except.pure] at h
    cases Except.ok.inj h
    exact hB

lemma selectTransporter_kcp_inv {env : Env} {node : Node} {tlsCfg : TLSConfig}
    {wsOpts : WSOptions} {tr : Transporter}
    (h : selectTransporter env node tlsCfg wsOpts = Except.ok tr)
    (ht : node.transport = "kcp") :
    ∃ kc, env.parseKCPConfig (node.get "c") = Except.ok kc := by
  unfold selectTransporter at h
  rw [ht] at h
  simp only [] at h
  cases hk : env.parseKCPConfig (node.get "c") with
  | error e => rw [hk] at h; simp [bind, Except.bind] at h
  | ok kc => exact ⟨kc, rfl⟩

lemma buildSSHConfig_ok_inv {env : Env} {node : Node} {sshCfg : SSHConfig}
    (h : buildSSHConfig env node = Except.ok sshCfg) :
    node.get "ssh_key" ≠ "" →
      ∃ k, env.parseSSHKeyFile (node.get "ssh_key") = Except.ok k := by
  intro hk
  unfold buildSSHConfig at h
  rw [if_pos hk] at h
  cases hp : env.parseSSHKeyFile (node.get "ssh_key") with
  | error e => rw [hp] at h; simp [bind, Except.bind] at h
  | ok k => exact ⟨k, rfl⟩

/-- C2 counterexample — a chain-node spec whose client certificate and key
files are unreadable (`tls.LoadX509KeyPair` fails on them), yet
`parseChainNode` succeeds: failing to load the cert/key pair does not abort
the chain-node's construction. -/
theorem chainNode_certkey_not_fatal_cex :
    testEnv.loadX509KeyPair
        (((testEnv.parseNode "cn3").toOption.getD {}).get "cert")
        (((testEnv.parseNode "cn3").toOption.getD {}).get "key")
      = Except.error "open cert" ∧
    ((testEnv.parseNode "cn3").toOption.getD {}).get "cert" = "missing.crt" ∧
    (parseChainNode testEnv "cn3").isOk = true := by
  exact ⟨rfl, rfl, rfl⟩

/-- C2 amended — For every chain-node spec, `parseChainNode` aborts the
whole chain-node's construction (an error and no nodes) whenever the spec
is malformed, the auth token fails base64 decoding, the CA file or the
secrets file is unreadable, the KCP config is malformed, the SSH key file
is unreadable, or the obfs4 negotiation fails for any expanded node —
stated in inverted form: a successful run certifies that every one of these
fallible steps that was reached succeeded.  (Client certificate/key loading
is best-effort and absent from this list, and the IP expansion has no error
path at all — `parseIP` returns a bare list.) -/
theorem chainNode_abort_conditions (env : Env) (ns : String) (nodes : List Node)
    (h : parseChainNode env ns = Except.ok nodes) :
    ∃ n0 nB : Node,
      env.parseNode ns = Except.ok n0 ∧
      applyAuthOption env n0 = Except.ok nB ∧
      (n0.get "auth" ≠ "" ∧ n0.user = none →
         ∃ cs, env.base64Decode (n0.get "auth") = Except.ok cs) ∧
      (nB.user = none → ∃ us, env.parseUsers (n0.get "secrets") = Except.ok us) ∧
      (∃ cas, env.loadCA (n0.get "ca") = Except.ok cas) ∧
      (n0.transport = "kcp" → ∃ kc, env.parseKCPConfig (n0.get "c") = Except.ok kc) ∧
      (n0.get "ssh_key" ≠ "" →
         ∃ k, env.parseSSHKeyFile (n0.get "ssh_key") = Except.ok k) ∧
      (n0.transport = "obfs4" →
         ∀ nd ∈ nodes, env.obfs4Init nd false = Except.ok ()) := by
  obtain ⟨n0, nA, rootCAs, tr, sshCfg, hp, hra, hca, htr, hssh, _, hobfs⟩ :=
    parseChainNode_inv h
  obtain ⟨nB, hB, hsec⟩ := resolveAuth_ok_inv hra
  have hAsh := resolveAuth_shape hra
  have hBsh := applyAuthOption_shape hB
  refine ⟨n0, nB, hp, hB, applyAuthOption_ok_inv hB, ?_, ?_, ?_, ?_, ?_⟩
  · intro hu
    have := hsec hu
    rw [hBsh] at this
    exact this
  · refine ⟨rootCAs, ?_⟩
    rw [hAsh] at hca
    exact hca
  · intro ht
    have ht' : nA.transport = "kcp" := by rw [hAsh]; exact ht
    have := selectTransporter_kcp_inv htr ht'
    rw [hAsh] at this
    exact this
  · intro hk
    have hk' : nA.get "ssh_key" ≠ "" := by rw [hAsh]; exact hk
    have := buildSSHConfig_ok_inv hssh hk'
    rw [hAsh] at this
    exact this
  · intro ht
    exact hobfs (by rw [hAsh]; exact ht)

theorem chainNode_abort_conditions_witness :
    ∃ n0 nB : Node,
      testEnv.parseNode "cn1" = Except.ok n0 ∧
      applyAuthOption testEnv n0 = Except.ok nB ∧
      (n0.get "auth" ≠ "" ∧ n0.user = none →
         ∃ cs, testEnv.base64Decode (n0.get "auth") = Except.ok cs) ∧
      (nB.user = none → ∃ us, testEnv.parseUsers (n0.get "secrets") = Except.ok us) ∧
      (∃ cas, testEnv.loadCA (n0.get "ca") = Except.ok cas) ∧
      (n0.transport = "kcp" → ∃ kc, testEnv.parseKCPConfig (n0.get "c") = Except.ok kc) ∧
      (n0.get "ssh_key" ≠ "" →
         ∃ k, testEnv.parseSSHKeyFile (n0.get "ssh_key") = Except.ok k) ∧
      (n0.transport = "obfs4" →
         ∀ nd ∈ (parseChainNode testEnv "cn1").toOption.getD [],
           testEnv.obfs4Init nd false = Except.ok ()) :=
  chainNode_abort_conditions testEnv "cn1" _ (by rfl)

lemma setKeyPair_parseNode (e : Env) (f : String → String → Except Err Cert) :
    (Env.setKeyPair e f).parseNode = e.parseNode := rfl

lemma setKeyPair_resolveAuth (e : Env) (f : String → String → Except Err Cert)
    (n : Node) : resolveAuth (Env.setKeyPair e f) n = resolveAuth e n := rfl

lemma setKeyPair_loadCA (e : Env) (f : String → String → Except Err Cert) :
    (Env.setKeyPair e f).loadCA = e.loadCA := rfl

lemma setKeyPair_selectTransporter (e : Env) (f : String → String → Except Err Cert)
    (n : Node) (t : TLSConfig) (w : WSOptions) :
    selectTransporter (Env.setKeyPair e f) n t w = selectTransporter e n t w := rfl

lemma setKeyPair_buildSSHConfig (e : Env) (f : String → String → Except Err Cert)
    (n : Node) : buildSSHConfig (Env.setKeyPair e f) n = buildSSHConfig e n := rfl

lemma setKeyPair_expandIPs (e : Env) (f : String → String → Except Err Cert)
    (n : Node) (hso : List HandshakeOption) (sp : String) :
    expandIPs (Env.setKeyPair e f) n hso sp = expandIPs e n hso sp := rfl

lemma setKeyPair_enrich (e : Env) (f : String → String → Except Err Cert)
    (n : Node) (tr : Transporter) :
    enrichChainNode (Env.setKeyPair e f) n tr = enrichChainNode e n tr := rfl

lemma setKeyPair_splitHostPort (e : Env) (f : String → String → Except Err Cert) :
    (Env.setKeyPair e f).splitHostPort = e.splitHostPort := rfl

lemma obfs4InitAll_not {env : Env} {t : String} {l : List Node}
    (h : t ≠ "obfs4") : obfs4InitAll env t l = pure l := by
  unfold obfs4InitAll
  rw [if_neg h]

lemma selectTransporter_isOk (env : Env) (node : Node) (t t' : TLSConfig)
    (w : WSOptions) :
    (selectTransporter env node t w).isOk = (selectTransporter env node t' w).isOk := by
  unfold selectTransporter
  split <;> rfl

/-- C3 — In `parseChainNode`, client certificate/key loading is
best-effort: a loading failure leaves the TLS configuration unchanged and
does not abort construction, while the pair is attached exactly when
loading succeeds.  The third conjunct states the non-abort part: a spec
that builds successfully still builds successfully when the loader is
replaced by any other (in particular an always-failing) loader.  It is
restricted to non-obfs4 transports only because the abstract obfs4
negotiation step in the environment receives the whole node, TLS material
included, and could otherwise be chosen to depend on it. -/
theorem clientCert_bestEffort (env : Env) :
    (∀ (cfg : TLSConfig) (cf kf : String) (e : Err),
       env.loadX509KeyPair cf kf = Except.error e →
       attachClientCert env cfg cf kf = cfg) ∧
    (∀ (cfg : TLSConfig) (cf kf : String) (c : Cert),
       env.loadX509KeyPair cf kf = Except.ok c →
       attachClientCert env cfg cf kf = { cfg with certificates := [c] }) ∧
    (∀ (ns : String) (nodes : List Node) (n0 : Node),
       parseChainNode env ns = Except.ok nodes →
       env.parseNode ns = Except.ok n0 → n0.transport ≠ "obfs4" →
       ∀ f, (parseChainNode (env.setKeyPair f) ns).isOk = true) := by
  refine ⟨?_, ?_, ?_⟩
  · intro cfg cf kf e he
    unfold attachClientCert
    rw [he]
  · intro cfg cf kf c hc
    unfold attachClientCert
    rw [hc]
  · intro ns nodes n0 h hp ht f
    obtain ⟨n0', nA, rootCAs, tr, sshCfg, hp', hra, hca, htr, hssh, _, _⟩ :=
      parseChainNode_inv h
    have hn0 : n0' = n0 := by
      rw [hp] at hp'
      exact (Except.ok.inj hp').symm
    subst hn0
    have hAsh := resolveAuth_shape hra
    have ht' : nA.transport ≠ "obfs4" := by
      rw [hAsh]
      exact ht
    have hiso :=
      selectTransporter_isOk env nA (chainTLSConfig env rootCAs nA)
        (chainTLSConfig (Env.setKeyPair env f) rootCAs nA) (chainWSOptions nA)
    rw [htr] at hiso
    cases hg : selectTransporter env nA
        (chainTLSConfig (Env.setKeyPair env f) rootCAs nA) (chainWSOptions nA) with
    | error e => rw [hg] at hiso; simp [Except.isOk, Except.toBool] at hiso
    | ok trG =>
        simp only [parseChainNode, setKeyPair_parseNode, setKeyPair_resolveAuth,
          setKeyPair_loadCA, setKeyPair_selectTransporter, setKeyPair_buildSSHConfig,
          hp, hra, hca, hg, hssh, bind, Except.bind]
        rw [obfs4InitAll_not ht']
        rfl

theorem clientCert_bestEffort_witness :
    attachClientCert testEnv ⟨"localhost", true, none, none, []⟩
        "missing.crt" "missing.key" = ⟨"localhost", true, none, none, []⟩ ∧
    (parseChainNode (testEnv.setKeyPair fun _ _ => Except.error "boom") "cn1").isOk
      = true :=
  ⟨(clientCert_bestEffort testEnv).1 _ "missing.crt" "missing.key" "open cert" (by rfl),
   (clientCert_bestEffort testEnv).2.2 "cn1" _ _ (by rfl) (by rfl) (by decide)
     (fun _ _ => Except.error "boom")⟩

lemma expandIPs_handshake {env : Env} {b : Node} {hso : List HandshakeOption}
    {sp : String} {nd : Node} (h : nd ∈ expandIPs env b hso sp) :
    nd.handshakeOptions = hso ∨
      ∃ ip, nd.handshakeOptions = hso ++ [HandshakeOption.addr ip] := by
  unfold expandIPs at h
  split at h
  · left
    rcases List.mem_singleton.mp h with rfl
    rfl
  · right
    rcases List.mem_map.mp h with ⟨ip, _, rfl⟩
    exact ⟨ip, rfl⟩

lemma expandIPs_user {env : Env} {b : Node} {hso : List HandshakeOption}
    {sp : String} {nd : Node} (h : nd ∈ expandIPs env b hso sp) :
    nd.user = b.user := by
  unfold expandIPs at h
  split at h
  · rcases List.mem_singleton.mp h with rfl; rfl
  · rcases List.mem_map.mp h with ⟨ip, _, rfl⟩; rfl

/-- C4 — The TLS configuration a chain node is built with has ServerName
equal to the host portion of the node address (or `"localhost"` when that
portion is empty); InsecureSkipVerify set exactly when the `secure` option
is not set to a truthy value; a manual verification step installed exactly
when a CA pool was loaded and `secure` is unset, and that step verifies the
leaf certificate against the captured CA pool with an empty DNS name,
offering every later peer certificate as an intermediate.  The last
conjunct ties the configuration to `parseChainNode`'s output: every
returned node carries it in its handshake options. -/
theorem chainTLS_config_spec (env : Env) :
    (∀ (cas : Option CertPool) (node : Node),
       (chainTLSConfig env cas node).serverName =
         (if (env.splitHostPort node.addr).1 = "" then "localhost"
          else (env.splitHostPort node.addr).1)) ∧
    (∀ (cas : Option CertPool) (node : Node),
       (chainTLSConfig env cas node).insecureSkipVerify = !(node.getBool "secure")) ∧
    (∀ (cas : Option CertPool) (node : Node) (pool : CertPool),
       (chainTLSConfig env cas node).verifyConnection = some ⟨pool⟩ ↔
         cas = some pool ∧ node.getBool "secure" = false) ∧
    (∀ (vs : VerifySpec) (leaf : Cert) (rest : List Cert),
       runVerifyConnection env vs (leaf :: rest) =
         env.certVerify leaf { roots := vs.roots, dnsName := "", intermediates := rest }) ∧
    (∀ (ns : String) (nodes : List Node),
       parseChainNode env ns = Except.ok nodes →
       ∃ (nA : Node) (cas : Option CertPool),
         resolveAuth env ((env.parseNode ns).toOption.getD {}) = Except.ok nA ∧
         env.loadCA (nA.get "ca") = Except.ok cas ∧
         ∀ nd ∈ nodes,
           HandshakeOption.tlsConfig (chainTLSConfig env cas nA) ∈
             nd.handshakeOptions) := by
  refine ⟨?_, ?_, ?_, ?_, ?_⟩
  · intro cas node
    unfold chainTLSConfig attachClientCert baseChainTLS hostOrLocalhost
    cases env.loadX509KeyPair (node.get "cert") (node.get "key") <;>
      cases cas <;> simp <;> split <;> rfl
  · intro cas node
    unfold chainTLSConfig attachClientCert baseChainTLS
    cases env.loadX509KeyPair (node.get "cert") (node.get "key") <;>
      cases cas <;> simp <;> split <;> rfl
  · intro cas node pool
    unfold chainTLSConfig attachClientCert baseChainTLS
    cases env.loadX509KeyPair (node.get "cert") (node.get "key") <;>
      cases cas <;> simp <;> split <;> simp_all
  · intro vs leaf rest
    rfl
  · intro ns nodes h
    obtain ⟨n0, nA, rootCAs, tr, sshCfg, hp, hra, hca, _, _, hshape, _⟩ :=
      parseChainNode_inv h
    refine ⟨nA, rootCAs, ?_, hca, ?_⟩
    · rw [hp]; exact hra
    · intro nd hnd
      rw [hshape] at hnd
      rcases expandIPs_handshake hnd with he | ⟨ip, he⟩ <;> rw [he]
      · simp [chainHandshakeOptions]
      · apply List.mem_append_left
        simp [chainHandshakeOptions]

theorem chainTLS_config_spec_witness :
    ∃ (nA : Node) (cas : Option CertPool),
      resolveAuth testEnv ((testEnv.parseNode "cn2").toOption.getD {}) = Except.ok nA ∧
      testEnv.loadCA (nA.get "ca") = Except.ok cas ∧
      ∀ nd ∈ (parseChainNode testEnv "cn2").toOption.getD [],
        HandshakeOption.tlsConfig (chainTLSConfig testEnv cas nA) ∈
          nd.handshakeOptions :=
  (chainTLS_config_spec testEnv).2.2.2.2 "cn2" _ (by rfl)

/-- C7 — Credential resolution priority in `parseChainNode` (its
`resolveAuth` stage, lines 101–122): an embedded credential is kept
untouched with no dependence on the `auth` or `secrets` machinery; else a
non-empty `auth` option is base64-decoded and split at the first colon;
else the first entry of the secrets file, if any, is used.  The last
conjunct carries the resolved credential to every node `parseChainNode`
returns. -/
theorem credential_priority_spec (env : Env) :
    (∀ (node : Node) (u : User), node.user = some u →
       resolveAuth env node = Except.ok node) ∧
    (∀ (node : Node) (cs : String), node.user = none → node.get "auth" ≠ "" →
       env.base64Decode (node.get "auth") = Except.ok cs →
       resolveAuth env node = Except.ok { node with user := some (decodedUser cs) }) ∧
    (∀ (node : Node) (us : List User), node.user = none → node.get "auth" = "" →
       env.parseUsers (node.get "secrets") = Except.ok us →
       resolveAuth env node =
         Except.ok (match us with
                    | [] => node
                    | u :: _ => { node with user := some u })) ∧
    (∀ (ns : String) (nodes : List Node) (n0 : Node),
       parseChainNode env ns = Except.ok nodes →
       env.parseNode ns = Except.ok n0 →
       ∃ nA, resolveAuth env n0 = Except.ok nA ∧
         ∀ nd ∈ nodes, nd.user = nA.user) := by
  refine ⟨?_, ?_, ?_, ?_⟩
  · intro node u hu
    unfold resolveAuth applyAuthOption
    rw [if_neg (by simp [hu])]
    simp only [bind, Except.bind, pure, Except.pure]
    rw [if_neg (by simp [hu])]
  · intro node cs hu ha hd
    unfold resolveAuth applyAuthOption
    rw [if_pos ⟨ha, hu⟩, hd]
    simp only [bind, Except.bind, pure, Except.pure]
    rw [if_neg (by simp)]
  · intro node us hu ha hp
    unfold resolveAuth applyAuthOption
    rw [if_neg (by simp [ha])]
    simp only [bind, Except.bind, pure, Except.pure]
    rw [if_pos hu, hp]
    cases us <;> rfl
  · intro ns nodes n0 h hp
    obtain ⟨n0', nA, rootCAs, tr, sshCfg, hp', hra, _, _, _, hshape, _⟩ :=
      parseChainNode_inv h
    have hn0 : n0' = n0 := by
      rw [hp] at hp'
      exact (Except.ok.inj hp').symm
    subst hn0
    refine ⟨nA, hra, ?_⟩
    intro nd hnd
    rw [hshape] at hnd
    rw [expandIPs_user hnd]
    rfl

theorem credential_priority_spec_witness :
    resolveAuth testEnv
        { addr := "10.0.0.1:1080", host := "10.0.0.1", protocol := "socks5",
          transport := "tls", user := some ⟨"u", some "p"⟩ } =
      Except.ok
        { addr := "10.0.0.1:1080", host := "10.0.0.1", protocol := "socks5",
          transport := "tls", user := some ⟨"u", some "p"⟩ } ∧
    ∃ nA, resolveAuth testEnv ((testEnv.parseNode "cn1").toOption.getD {}) =
        Except.ok nA ∧
      ∀ nd ∈ (parseChainNode testEnv "cn1").toOption.getD [], nd.user = nA.user :=
  ⟨(credential_priority_spec testEnv).1 _ ⟨"u", some "p"⟩ rfl,
   by
    obtain ⟨nA, h1, h2⟩ :=
      (credential_priority_spec testEnv).2.2.2 "cn1" _ _ (by rfl) (by rfl)
    exact ⟨nA, h1, h2⟩⟩

/-- C8 — Dispatch on unknown keys never errors and lands on the documented
defaults: a transport key outside the recognized set yields the plain TCP
Transporter, a chain protocol key outside its set yields the auto-detecting
Connector, and a serve protocol key outside its set yields the plain TCP
direct-forward Handler when a remote target is configured and the
auto-detecting Handler otherwise. -/
theorem unknown_key_defaults :
    (∀ (env : Env) (node : Node) (t : TLSConfig) (w : WSOptions),
       node.transport ∉ chainTransportKeys →
       selectTransporter env node t w = Except.ok Transporter.tcp) ∧
    (∀ node : Node, node.protocol ∉ chainProtocolKeys →
       selectConnector node = Connector.auto node.user) ∧
    (∀ node : Node, node.protocol ∉ serveProtocolKeys →
       selectHandler node =
         if node.remote ≠ "" then Handler.tcpDirect node.remote
         else Handler.auto) := by
  refine ⟨?_, ?_, ?_⟩
  · intro env node t w hmem
    unfold selectTransporter
    split
    all_goals first
      | rfl
      | (rename_i heq
         exfalso
         apply hmem
         rw [heq]
         simp [chainTransportKeys])
  · intro node hmem
    unfold selectConnector
    split
    all_goals first
      | rfl
      | (rename_i heq
         exfalso
         apply hmem
         rw [heq]
         simp [chainProtocolKeys])
  · intro node hmem
    unfold selectHandler
    split
    all_goals first
      | rfl
      | (rename_i heq
         exfalso
         apply hmem
         rw [heq]
         simp [serveProtocolKeys])

theorem unknown_key_defaults_witness :
    selectTransporter testEnv { transport := "quic" }
        ⟨"localhost", true, none, none, []⟩
        ⟨false, 0, 0, "", ""⟩ = Except.ok Transporter.tcp ∧
    selectConnector { protocol := "mystery" } = Connector.auto none ∧
    selectHandler { protocol := "mystery", remote := "10.0.0.9:80" } =
      Handler.tcpDirect "10.0.0.9:80" :=
  ⟨unknown_key_defaults.1 testEnv { transport := "quic" } _ _ (by decide),
   unknown_key_defaults.2.1 { protocol := "mystery" } (by decide),
   by
    rw [unknown_key_defaults.2.2 { protocol := "mystery", remote := "10.0.0.9:80" }
      (by decide)]
    rfl⟩

section IfaceIndep

variable (e : Env) (i : String → Option NetInterface)
variable (a : NetInterface → Except Err (List NetAddr))
variable (r : String → Except Err TCPAddr)

lemma setIface_parseNode : (Env.setIfaceEnv e i a r).parseNode = e.parseNode := rfl

lemma setIface_parseAuthenticator :
    (Env.setIfaceEnv e i a r).parseAuthenticator = e.parseAuthenticator := rfl

lemma setIface_listen : (Env.setIfaceEnv e i a r).listen = e.listen := rfl

lemma setIface_parsePermissions :
    (Env.setIfaceEnv e i a r).parsePermissions = e.parsePermissions := rfl

lemma setIface_parseBypass :
    (Env.setIfaceEnv e i a r).parseBypass = e.parseBypass := rfl

lemma setIface_parseHosts : (Env.setIfaceEnv e i a r).parseHosts = e.parseHosts := rfl

lemma setIface_parseResolver :
    (Env.setIfaceEnv e i a r).parseResolver = e.parseResolver := rfl

lemma setIface_parseIPRoutes :
    (Env.setIfaceEnv e i a r).parseIPRoutes = e.parseIPRoutes := rfl

lemma setIface_parseIPAddr :
    (Env.setIfaceEnv e i a r).parseIPAddr = e.parseIPAddr := rfl

lemma setIface_applyAuthOption (n : Node) :
    applyAuthOption (Env.setIfaceEnv e i a r) n = applyAuthOption e n := rfl

lemma setIface_userFallback (n : Node) :
    userFallback (Env.setIfaceEnv e i a r) n = userFallback e n := rfl

lemma setIface_serveTLSConfig (n : Node) :
    serveTLSConfig (Env.setIfaceEnv e i a r) n = serveTLSConfig e n := rfl

/-- For every transport other than `"tcp"`, the listener-construction
switch never consults the network-interface machinery: its result is the
same under any replacement of `InterfaceByName` / `Addrs` /
`ResolveTCPAddr`. -/
lemma buildListener_iface_indep (chain : Chain) (node : Node)
    (auth : Option Authenticator) (tlsCfg : Option TLSConfig) (wsOpts : WSOptions)
    (tunRoutes : List IPRoute) (ttl : Duration) (ht : node.transport ≠ "tcp") :
    buildListener (Env.setIfaceEnv e i a r) chain node auth tlsCfg wsOpts tunRoutes ttl
      = buildListener e chain node auth tlsCfg wsOpts tunRoutes ttl := by
  unfold buildListener
  split
  all_goals first
    | rfl
    | (rename_i heq; exact absurd heq ht)

end IfaceIndep

lemma exceptBind_ok {α β : Type} (x : α) (f : α → Except Err β) :
    bind (Except.ok x) f = f x := rfl

lemma exceptBind_err {α β : Type} (e : Err) (f : α → Except Err β) :
    bind (Except.error e) f = Except.error e := rfl

lemma userFallback_shape (env : Env) (n : Node) :
    userFallback env n = { n with user := (userFallback env n).user } := by
  unfold userFallback
  split
  · split <;> rfl
  · rfl

/-- C9 — The `sourceInterface` override lives only in the `"tcp"` branch of
the listener switch: for any other transport key (the default branch
included) the interface machinery is never consulted — the construction's
outcome is invariant under arbitrary replacement of the interface
environment, so a missing interface cannot fail it — and every address
handed to a listener constructor is the node's original spec address
(the TUN/TAP constructors take no address). -/
theorem sourceInterface_only_tcp_branch (env : Env) :
    (∀ (chain : Chain) (node : Node) (auth : Option Authenticator)
       (tlsCfg : Option TLSConfig) (wsOpts : WSOptions) (tunRoutes : List IPRoute)
       (ttl : Duration) ibn ia rta,
       node.transport ≠ "tcp" →
       buildListener (env.setIfaceEnv ibn ia rta) chain node auth tlsCfg wsOpts
           tunRoutes ttl
         = buildListener env chain node auth tlsCfg wsOpts tunRoutes ttl) ∧
    (∀ (chain : Chain) (node : Node) (auth : Option Authenticator)
       (tlsCfg : Option TLSConfig) (wsOpts : WSOptions) (tunRoutes : List IPRoute)
       (ttl : Duration) (c : Chain) (call : ListenerCall),
       node.transport ≠ "tcp" →
       buildListener env chain node auth tlsCfg wsOpts tunRoutes ttl
         = Except.ok (c, call) →
       ∀ adr, call.addrArg = some adr → adr = node.addr) ∧
    (∀ (chain : Chain) (ns : String) (n0 : Node) ibn ia rta,
       env.parseNode ns = Except.ok n0 → n0.transport ≠ "tcp" →
       genRouter (env.setIfaceEnv ibn ia rta) chain ns = genRouter env chain ns) := by
  refine ⟨?_, ?_, ?_⟩
  · intro chain node auth tlsCfg wsOpts tunRoutes ttl ibn ia rta ht
    exact buildListener_iface_indep env ibn ia rta chain node auth tlsCfg wsOpts
      tunRoutes ttl ht
  · intro chain node auth tlsCfg wsOpts tunRoutes ttl c call ht h adr ha
    unfold buildListener at h
    split at h
    all_goals first
      | (exact absurd (by assumption) ht)
      | (cases Except.ok.inj h
         simp [ListenerCall.addrArg] at ha
         exact ha.symm)
      | (cases Except.ok.inj h
         simp [ListenerCall.addrArg] at ha)
      | skip
    · cases hk : kcpListenerConfig env node with
      | error e => rw [hk] at h; simp [bind, Except.bind] at h
      | ok config =>
          rw [hk] at h
          simp only [bind, Except.bind, pure, Except.pure] at h
          cases Except.ok.inj h
          simp [ListenerCall.addrArg] at ha
          exact ha.symm
    · cases hs : sshListenerConfig env node auth tlsCfg with
      | error e => rw [hs] at h; simp [bind, Except.bind] at h
      | ok cfg =>
          rw [hs] at h
          simp only [bind, Except.bind, pure, Except.pure] at h
          split at h <;>
            (cases Except.ok.inj h
             simp [ListenerCall.addrArg] at ha
             exact ha.symm)
    · cases ho : env.obfs4Init node true with
      | error e => rw [ho] at h; simp [bind, Except.bind] at h
      | ok u =>
          rw [ho] at h
          simp only [bind, Except.bind, pure, Except.pure] at h
          cases Except.ok.inj h
          simp [ListenerCall.addrArg] at ha
          exact ha.symm
  · intro chain ns n0 ibn ia rta hp ht
    unfold genRouter
    simp only [setIface_parseNode, setIface_parseAuthenticator, setIface_listen,
      setIface_parsePermissions, setIface_parseBypass, setIface_parseHosts,
      setIface_parseResolver, setIface_parseIPRoutes, setIface_parseIPAddr,
      setIface_applyAuthOption, setIface_userFallback, setIface_serveTLSConfig]
    rw [hp]
    simp only [exceptBind_ok]
    cases hA : applyAuthOption env n0 with
    | error e => simp only [exceptBind_err]
    | ok nB =>
    simp only [exceptBind_ok]
    cases hau : env.parseAuthenticator (nB.get "secrets") with
    | error e => simp only [exceptBind_err]
    | ok auth0 =>
    simp only [exceptBind_ok]
    cases htl : serveTLSConfig env (userFallback env nB) with
    | error e => simp only [exceptBind_err]
    | ok tlsCfg =>
    simp only [exceptBind_ok]
    have e1 : (userFallback env nB).transport = nB.transport := by
      rw [userFallback_shape env nB]
    have e2 : nB.transport = n0.transport := by
      rw [applyAuthOption_shape hA]
    have htr : (userFallback env nB).transport ≠ "tcp" := by
      rw [e1, e2]; exact ht
    rw [buildListener_iface_indep env ibn ia rta chain (userFallback env nB) _ _ _
      _ _ htr]

theorem sourceInterface_only_tcp_branch_witness :
    genRouter
        (testEnv.setIfaceEnv (fun _ => none) (fun _ => Except.error "no addresses")
          (fun _ => Except.error "resolve"))
        { retries := 0, mark := 0, iface := "", groups := [] } "sv2"
      = genRouter testEnv { retries := 0, mark := 0, iface := "", groups := [] }
          "sv2" :=
  (sourceInterface_only_tcp_branch testEnv).2.2
    { retries := 0, mark := 0, iface := "", groups := [] } "sv2" _
    (fun _ => none) (fun _ => Except.error "no addresses")
    (fun _ => Except.error "resolve") (by rfl) (by decide)

lemma buildListener_tcp_fail (env : Env) (chain : Chain) (node : Node)
    (auth : Option Authenticator) (tlsCfg : Option TLSConfig) (wsOpts : WSOptions)
    (tunRoutes : List IPRoute) (ttl : Duration)
    (htcp : node.transport = "tcp")
    (hfail : (applySourceInterface env node).isOk = false) :
    (buildListener env chain node auth tlsCfg wsOpts tunRoutes ttl).isOk = false := by
  unfold buildListener
  split
  all_goals first
    | (rename_i heq
       rw [heq] at htcp
       exact absurd htcp (by decide))
    | (exact absurd htcp (by assumption))
    | (cases hasi : applySourceInterface env node with
       | error e => simp [exceptBind_err, Except.isOk, Except.toBool]
       | ok adr =>
           rw [hasi] at hfail
           simp [Except.isOk, Except.toBool] at hfail)

lemma genRouter_fails_of_sourceInterface {env : Env} {ns : String} {n0 : Node}
    (hp : env.parseNode ns = Except.ok n0)
    (htcp : n0.transport = "tcp")
    (hfail : (applySourceInterface env n0).isOk = false) :
    ∀ chain, (genRouter env chain ns).isOk = false := by
  intro chain
  unfold genRouter
  rw [hp]
  simp only [exceptBind_ok]
  cases hA : applyAuthOption env n0 with
  | error e => simp [exceptBind_err, Except.isOk, Except.toBool]
  | ok nB =>
  simp only [exceptBind_ok]
  cases hau : env.parseAuthenticator (nB.get "secrets") with
  | error e => simp [exceptBind_err, Except.isOk, Except.toBool]
  | ok auth0 =>
  simp only [exceptBind_ok]
  cases htl : serveTLSConfig env (userFallback env nB) with
  | error e => simp [exceptBind_err, Except.isOk, Except.toBool]
  | ok tlsCfg =>
  simp only [exceptBind_ok]
  have s1 : nB = { n0 with user := nB.user } := applyAuthOption_shape hA
  have s2 : userFallback env nB = { nB with user := (userFallback env nB).user } :=
    userFallback_shape env nB
  have htcp2 : (userFallback env nB).transport = "tcp" := by
    rw [s2, s1]; exact htcp
  have hASI : applySourceInterface env (userFallback env nB)
      = applySourceInterface env n0 := by
    rw [s2, s1]
    rfl
  have hfail2 : (applySourceInterface env (userFallback env nB)).isOk = false := by
    rw [hASI]; exact hfail
  cases hbl : buildListener env chain (userFallback env nB)
      (serveAuthenticator auth0 nB) tlsCfg (serveWSOptions (userFallback env nB))
      (applyDefaultGateway (env.parseIPRoutes ((userFallback env nB).get "route"))
        (env.parseIPAddr ((userFallback env nB).get "gw")))
      ((userFallback env nB).getDuration "ttl") with
  | error e => simp [exceptBind_err, Except.isOk, Except.toBool]
  | ok pr =>
      have hx := buildListener_tcp_fail env chain (userFallback env nB)
        (serveAuthenticator auth0 nB) tlsCfg (serveWSOptions (userFallback env nB))
        (applyDefaultGateway (env.parseIPRoutes ((userFallback env nB).get "route"))
          (env.parseIPAddr ((userFallback env nB).get "gw")))
        ((userFallback env nB).getDuration "ttl") htcp2 hfail2
      rw [hbl] at hx
      simp [Except.isOk, Except.toBool] at hx

lemma genRouterList_fails {env : Env} {ns : String}
    (hfail : ∀ chain, (genRouter env chain ns).isOk = false) :
    ∀ (l : List String) (chain : Chain), ns ∈ l →
      (genRouterList env chain l).isOk = false := by
  intro l
  induction l with
  | nil => intro chain h; cases h
  | cons x rest ih =>
      intro chain hmem
      unfold genRouterList
      cases hmem with
      | head =>
          cases hg : genRouter env chain ns with
          | error e => simp [exceptBind_err, Except.isOk, Except.toBool]
          | ok pr =>
              have := hfail chain
              rw [hg] at this
              simp [Except.isOk, Except.toBool] at this
      | tail _ hmem =>
          cases hg : genRouter env chain x with
          | error e => simp [exceptBind_err, Except.isOk, Except.toBool]
          | ok pr =>
              obtain ⟨c1, rt⟩ := pr
              simp only [exceptBind_ok]
              cases hrest : genRouterList env c1 rest with
              | error e => simp [exceptBind_err, Except.isOk, Except.toBool]
              | ok pr2 =>
                  have := ih c1 hmem
                  rw [hrest] at this
                  simp [Except.isOk, Except.toBool] at this

lemma GenRouters_fails {env : Env} {ns : String}
    (hfail : ∀ chain, (genRouter env chain ns).isOk = false)
    (r : route) (hmem : ns ∈ r.serveNodes) : (GenRouters env r).isOk = false := by
  unfold GenRouters
  cases hc : parseChain env r with
  | error e => simp [exceptBind_err, Except.isOk, Except.toBool]
  | ok chain =>
      simp only [exceptBind_ok]
      cases hgl : genRouterList env chain r.serveNodes with
      | error e => simp [exceptBind_err, Except.isOk, Except.toBool]
      | ok pr =>
          have := genRouterList_fails hfail r.serveNodes chain hmem
          rw [hgl] at this
          simp [Except.isOk, Except.toBool] at this

/-- C1 counterexample — a serve-node spec that carries
`sourceInterface=eth7` naming an interface absent from the environment, yet
`GenRouters` succeeds and yields a router: the claim's quantification over
every serve-node spec fails, because the override only exists inside the
`"tcp"` listener branch and this spec's transport is `udp`. -/
theorem sourceInterface_nontcp_ignored_cex :
    ((testEnv.parseNode "sv2").toOption.getD {}).get "sourceInterface" = "eth7" ∧
    ((testEnv.parseNode "sv2").toOption.getD {}).transport = "udp" ∧
    testEnv.interfaceByName "eth7" = none ∧
    (GenRouters testEnv { serveNodes := ["sv2"] }).isOk = true :=
  ⟨rfl, rfl, rfl, rfl⟩

/-- C1 amended — For every serve-node spec whose transport key is `"tcp"`
and which carries a non-empty `sourceInterface` option, listener
construction resolves that interface's first IPv4 address; when the
interface cannot be found, its addresses cannot be read, or none is IPv4,
the substitution step fails with the corresponding descriptive error and
`GenRouters` as a whole returns an error, producing no router; on success
the listen address's host is replaced by that IPv4 address with the
resolved port (and zone) preserved. -/
theorem sourceInterface_tcp_failfast (env : Env) (ns : String) (n0 : Node)
    (hp : env.parseNode ns = Except.ok n0)
    (htcp : n0.transport = "tcp")
    (hif : n0.get "sourceInterface" ≠ "") :
    (env.interfaceByName (n0.get "sourceInterface") = none →
       applySourceInterface env n0
         = Except.error (ifaceLookupErr (n0.get "sourceInterface"))) ∧
    (∀ ief e, env.interfaceByName (n0.get "sourceInterface") = some ief →
       env.interfaceAddrs ief = Except.error e →
       applySourceInterface env n0
         = Except.error (ifaceAddrsErr (n0.get "sourceInterface"))) ∧
    (∀ ief addrs, env.interfaceByName (n0.get "sourceInterface") = some ief →
       env.interfaceAddrs ief = Except.ok addrs →
       addrs.findSome? NetAddr.toV4 = none →
       applySourceInterface env n0
         = Except.error (ifaceNoIPv4Err (n0.get "sourceInterface"))) ∧
    (∀ ief addrs ipv4 laddr,
       env.interfaceByName (n0.get "sourceInterface") = some ief →
       env.interfaceAddrs ief = Except.ok addrs →
       addrs.findSome? NetAddr.toV4 = some ipv4 →
       env.resolveTCPAddr n0.addr = Except.ok laddr →
       applySourceInterface env n0
         = Except.ok (tcpAddrString ipv4 laddr.port laddr.zone)) ∧
    ((applySourceInterface env n0).isOk = false →
       ∀ r, ns ∈ r.serveNodes → (GenRouters env r).isOk = false) := by
  refine ⟨?_, ?_, ?_, ?_, ?_⟩
  · intro h1
    unfold applySourceInterface
    rw [if_neg hif, h1]
  · intro ief e h1 h2
    unfold applySourceInterface
    rw [if_neg hif, h1]
    simp only [h2]
  · intro ief addrs h1 h2 h3
    unfold applySourceInterface
    rw [if_neg hif, h1]
    simp only [h2, h3]
  · intro ief addrs ipv4 laddr h1 h2 h3 h4
    unfold applySourceInterface
    rw [if_neg hif, h1]
    simp only [h2, h3, h4, exceptBind_ok]
    rfl
  · intro hfail r hmem
    exact GenRouters_fails
      (genRouter_fails_of_sourceInterface hp htcp hfail) r hmem

theorem sourceInterface_tcp_failfast_witness :
    applySourceInterface testEnv ((testEnv.parseNode "sv1").toOption.getD {})
      = Except.error (ifaceLookupErr "eth7") ∧
    (GenRouters testEnv { serveNodes := ["sv1"] }).isOk = false :=
  ⟨(sourceInterface_tcp_failfast testEnv "sv1" _ (by rfl) (by rfl) (by decide)).1
     (by rfl),
   (sourceInterface_tcp_failfast testEnv "sv1" _ (by rfl) (by rfl)
       (by decide)).2.2.2.2 (by rfl) { serveNodes := ["sv1"] } (by decide)⟩

end EchoTproxy
